import Mathlib

/-!
Shallow embedding of `src/preamble.h` (Naxaes/c-preamble) and proofs about it.

The header is a C preprocessor toolkit.  The parts embedded here are:

* the bit query `BIT_CHECK` and the binary-formatting macros
  `BYTE_TO_BINARY_CHARS_{8,16,32,64}` and `BINARY_FORMAT_PATTERN_{8,16,32,64}`;
* the arity-counting macros `POP_10TH_ARG` / `VA_ARGS_COUNT` and the dispatch
  macros `SELECT_FUNCTION` / `WITH_DEFAULTS`;
* the X-macro generators `GENERATE_ENUM` / `GENERATE_STRING`.

Machine integers are embedded as `Nat` with explicit `% 2 ^ w` at the points
where the C source casts (`(u8)(x)` etc.); the variadic machinery is embedded
on argument lists (`List Nat`), and preprocessor-name resolution is embedded
as a lookup environment `String → Option _` in which `none` models an
undefined identifier, i.e. a build-time failure.
-/

namespace Preamble

/-- The C cast `(u8)(x)`: reduction of an unsigned value modulo `2 ^ 8`. -/
def u8 (x : Nat) : Nat := x % 2 ^ 8

/-- The C cast `(u16)(x)`: reduction modulo `2 ^ 16`. -/
def u16 (x : Nat) : Nat := x % 2 ^ 16

/-- The C cast `(u32)(x)`: reduction modulo `2 ^ 32`. -/
def u32 (x : Nat) : Nat := x % 2 ^ 32

/-- The C cast `(u64)(x)`: reduction modulo `2 ^ 64`. -/
def u64 (x : Nat) : Nat := x % 2 ^ 64

/-- `#define BIT_CHECK(x, bit)  (!!((x) & (1ULL << (bit))))` (preamble.h:115). -/
def BIT_CHECK (x bit : Nat) : Bool := x &&& (1 <<< bit) != 0

/-- `BYTE_TO_BINARY_CHARS_8(x)` (preamble.h:195): the eight comma-separated
expressions `BIT_CHECK((u8)(x), i) ? '1' : '0'` for `i` = 7 down to 0. -/
def BYTE_TO_BINARY_CHARS_8 (x : Nat) : List Char :=
  [if BIT_CHECK (u8 x) 7 then '1' else '0',
   if BIT_CHECK (u8 x) 6 then '1' else '0',
   if BIT_CHECK (u8 x) 5 then '1' else '0',
   if BIT_CHECK (u8 x) 4 then '1' else '0',
   if BIT_CHECK (u8 x) 3 then '1' else '0',
   if BIT_CHECK (u8 x) 2 then '1' else '0',
   if BIT_CHECK (u8 x) 1 then '1' else '0',
   if BIT_CHECK (u8 x) 0 then '1' else '0']

/-- `BYTE_TO_BINARY_CHARS_16(x)` (preamble.h:196):
`BYTE_TO_BINARY_CHARS_8(((u16)(x)) >> 8), BYTE_TO_BINARY_CHARS_8(((u16)(x)))`. -/
def BYTE_TO_BINARY_CHARS_16 (x : Nat) : List Char :=
  BYTE_TO_BINARY_CHARS_8 (u16 x >>> 8) ++ BYTE_TO_BINARY_CHARS_8 (u16 x)

/-- `BYTE_TO_BINARY_CHARS_32(x)` (preamble.h:197):
`BYTE_TO_BINARY_CHARS_16(((u32)(x)) >> 16), BYTE_TO_BINARY_CHARS_16(((u32)(x)))`. -/
def BYTE_TO_BINARY_CHARS_32 (x : Nat) : List Char :=
  BYTE_TO_BINARY_CHARS_16 (u32 x >>> 16) ++ BYTE_TO_BINARY_CHARS_16 (u32 x)

/-- `BYTE_TO_BINARY_CHARS_64(x)` (preamble.h:198):
`BYTE_TO_BINARY_CHARS_32(((u64)(x)) >> 32), BYTE_TO_BINARY_CHARS_32(((u64)(x)))`. -/
def BYTE_TO_BINARY_CHARS_64 (x : Nat) : List Char :=
  BYTE_TO_BINARY_CHARS_32 (u64 x >>> 32) ++ BYTE_TO_BINARY_CHARS_32 (u64 x)

/-- The spec's "big-endian bit expansion of `v` truncated to its low `w`
bits": one character per bit of `v % 2 ^ w`, from bit `w - 1` down to bit 0,
`'1'` when the bit is set and `'0'` otherwise. -/
def bigEndianBits (w v : Nat) : List Char :=
  (List.range w).reverse.map fun i => if (v % 2 ^ w).testBit i then '1' else '0'

/-- Helper: the same big-endian bit list read off the untruncated value. -/
def rawBits (w v : Nat) : List Char :=
  (List.range w).reverse.map fun i => if v.testBit i then '1' else '0'

theorem BIT_CHECK_eq_testBit (x bit : Nat) : BIT_CHECK x bit = x.testBit bit := by
  simp only [BIT_CHECK, Nat.one_shiftLeft, Nat.and_two_pow]
  cases h : x.testBit bit <;> simp [h, Nat.pos_iff_ne_zero.mp (Nat.two_pow_pos bit)]

theorem bigEndianBits_eq_rawBits (w v : Nat) : bigEndianBits w v = rawBits w v := by
  unfold bigEndianBits rawBits
  refine List.map_congr_left fun i hi => ?_
  rw [List.mem_reverse, List.mem_range] at hi
  simp [Nat.testBit_mod_two_pow, hi]

theorem rawBits_mod (w v : Nat) : rawBits w (v % 2 ^ w) = rawBits w v := by
  have h : rawBits w (v % 2 ^ w) = bigEndianBits w v := rfl
  rw [h, bigEndianBits_eq_rawBits]

/-- Splitting a big-endian bit list at a byte/word boundary: the high `hi`
bits of `v` (read from `v >>> lo`) followed by the low `lo` bits. -/
theorem rawBits_append (lo hi v : Nat) :
    rawBits (lo + hi) v = rawBits hi (v >>> lo) ++ rawBits lo v := by
  unfold rawBits
  rw [List.range_add, List.reverse_append, List.map_append]
  congr 1
  rw [← List.map_reverse, List.map_map]
  refine List.map_congr_left fun i _ => ?_
  simp [Function.comp, Nat.testBit_shiftRight]

theorem length_rawBits (w v : Nat) : (rawBits w v).length = w := by
  simp [rawBits]

theorem BYTE_TO_BINARY_CHARS_8_eq (v : Nat) :
    BYTE_TO_BINARY_CHARS_8 v = rawBits 8 v := by
  have h : ∀ i, i < 8 → ((v % 2 ^ 8).testBit i) = v.testBit i := by
    intro i hi
    rw [Nat.testBit_mod_two_pow]
    simp [hi]
  simp only [BYTE_TO_BINARY_CHARS_8, u8, BIT_CHECK_eq_testBit, rawBits]
  rw [h 7 (by norm_num), h 6 (by norm_num), h 5 (by norm_num), h 4 (by norm_num),
      h 3 (by norm_num), h 2 (by norm_num), h 1 (by norm_num), h 0 (by norm_num)]
  rfl

theorem BYTE_TO_BINARY_CHARS_16_eq (v : Nat) :
    BYTE_TO_BINARY_CHARS_16 v = rawBits 16 v := by
  rw [BYTE_TO_BINARY_CHARS_16, BYTE_TO_BINARY_CHARS_8_eq, BYTE_TO_BINARY_CHARS_8_eq,
      u16, ← rawBits_append, rawBits_mod]

theorem BYTE_TO_BINARY_CHARS_32_eq (v : Nat) :
    BYTE_TO_BINARY_CHARS_32 v = rawBits 32 v := by
  rw [BYTE_TO_BINARY_CHARS_32, BYTE_TO_BINARY_CHARS_16_eq, BYTE_TO_BINARY_CHARS_16_eq,
      u32, ← rawBits_append, rawBits_mod]

theorem BYTE_TO_BINARY_CHARS_64_eq (v : Nat) :
    BYTE_TO_BINARY_CHARS_64 v = rawBits 64 v := by
  rw [BYTE_TO_BINARY_CHARS_64, BYTE_TO_BINARY_CHARS_32_eq, BYTE_TO_BINARY_CHARS_32_eq,
      u64, ← rawBits_append, rawBits_mod]

/-- `#define BINARY_FORMAT_PATTERN_PREFIX "0b"` (preamble.h:184). -/
def BINARY_FORMAT_PATTERN_PREFIX : String := "0b"

/-- `#define BINARY_FORMAT_PATTERN_DELIMITER "_"` (preamble.h:187). -/
def BINARY_FORMAT_PATTERN_DELIMITER : String := "_"

/-- `BINARY_FORMAT_PATTERN_8` (preamble.h:190): adjacent C string literals
concatenate. -/
def BINARY_FORMAT_PATTERN_8 : String :=
  BINARY_FORMAT_PATTERN_PREFIX ++ "%c%c%c%c%c%c%c%c"

/-- `BINARY_FORMAT_PATTERN_16` (preamble.h:191). -/
def BINARY_FORMAT_PATTERN_16 : String :=
  BINARY_FORMAT_PATTERN_PREFIX ++ "%c%c%c%c%c%c%c%c" ++
  BINARY_FORMAT_PATTERN_DELIMITER ++ "%c%c%c%c%c%c%c%c"

/-- `BINARY_FORMAT_PATTERN_32` (preamble.h:192). -/
def BINARY_FORMAT_PATTERN_32 : String :=
  BINARY_FORMAT_PATTERN_PREFIX ++ "%c%c%c%c%c%c%c%c" ++
  BINARY_FORMAT_PATTERN_DELIMITER ++ "%c%c%c%c%c%c%c%c" ++
  BINARY_FORMAT_PATTERN_DELIMITER ++ "%c%c%c%c%c%c%c%c" ++
  BINARY_FORMAT_PATTERN_DELIMITER ++ "%c%c%c%c%c%c%c%c"

/-- `BINARY_FORMAT_PATTERN_64` (preamble.h:193). -/
def BINARY_FORMAT_PATTERN_64 : String :=
  BINARY_FORMAT_PATTERN_PREFIX ++ "%c%c%c%c%c%c%c%c" ++
  BINARY_FORMAT_PATTERN_DELIMITER ++ "%c%c%c%c%c%c%c%c" ++
  BINARY_FORMAT_PATTERN_DELIMITER ++ "%c%c%c%c%c%c%c%c" ++
  BINARY_FORMAT_PATTERN_DELIMITER ++ "%c%c%c%c%c%c%c%c" ++
  BINARY_FORMAT_PATTERN_DELIMITER ++ "%c%c%c%c%c%c%c%c" ++
  BINARY_FORMAT_PATTERN_DELIMITER ++ "%c%c%c%c%c%c%c%c" ++
  BINARY_FORMAT_PATTERN_DELIMITER ++ "%c%c%c%c%c%c%c%c" ++
  BINARY_FORMAT_PATTERN_DELIMITER ++ "%c%c%c%c%c%c%c%c"

/-- The spec's description of a pattern of width `w`: the prefix `"0b"`
followed by `w` placeholders `"%c"` grouped into 8-placeholder byte groups
separated by the delimiter `"_"`, most-significant byte group first. -/
def specPattern (w : Nat) : String :=
  "0b" ++ String.intercalate "_" (List.replicate (w / 8) "%c%c%c%c%c%c%c%c")

/-- Number of placeholders in a pattern string: each placeholder is `"%c"`
and the character `'%'` occurs nowhere else, so count occurrences of `'%'`. -/
def placeholderCount (s : String) : Nat := s.toList.count '%'

/-- Reassembling an integer from a list of `'1'`/`'0'` characters, most
significant bit first. -/
def fromBinaryChars (cs : List Char) : Nat :=
  cs.foldl (fun acc c => 2 * acc + (if c = '1' then 1 else 0)) 0

theorem mod_two_pow_succ (v w : Nat) :
    v % 2 ^ (w + 1) = (v.testBit w).toNat * 2 ^ w + v % 2 ^ w := by
  rw [pow_succ, Nat.mod_mul, Nat.testBit_to_div_mod]
  rcases Nat.mod_two_eq_zero_or_one (v / 2 ^ w) with h2 | h2
  · simp [h2]
  · simp [h2]
    omega

theorem foldl_rawBits (w : Nat) : ∀ (v acc : Nat),
    (rawBits w v).foldl (fun acc c => 2 * acc + (if c = '1' then 1 else 0)) acc
      = acc * 2 ^ w + v % 2 ^ w := by
  induction w with
  | zero => intro v acc; simp [rawBits, Nat.mod_one]
  | succ w ih =>
    intro v acc
    have hsplit : rawBits (w + 1) v
        = (if v.testBit w then '1' else '0') :: rawBits w v := by
      unfold rawBits
      rw [List.range_succ, List.reverse_append]
      rfl
    rw [hsplit, List.foldl_cons, ih, mod_two_pow_succ]
    cases h : v.testBit w <;> simp [h] <;> ring

/-- C1: for every width w ∈ {8,16,32,64} and every value v, the values
sequence produced by `BYTE_TO_BINARY_CHARS_w` has exactly w elements and
equals the big-endian bit expansion of v truncated to its low w bits: element
i is '1' exactly when bit (w-1-i) of v % 2^w is set, so the elements run from
bit (w-1) down to bit 0. -/
theorem claim_C1_byte_to_binary_chars_bits (v : Nat) :
    (BYTE_TO_BINARY_CHARS_8 v = bigEndianBits 8 v ∧
      (BYTE_TO_BINARY_CHARS_8 v).length = 8) ∧
    (BYTE_TO_BINARY_CHARS_16 v = bigEndianBits 16 v ∧
      (BYTE_TO_BINARY_CHARS_16 v).length = 16) ∧
    (BYTE_TO_BINARY_CHARS_32 v = bigEndianBits 32 v ∧
      (BYTE_TO_BINARY_CHARS_32 v).length = 32) ∧
    (BYTE_TO_BINARY_CHARS_64 v = bigEndianBits 64 v ∧
      (BYTE_TO_BINARY_CHARS_64 v).length = 64) := by
  refine ⟨⟨?_, ?_⟩, ⟨?_, ?_⟩, ⟨?_, ?_⟩, ⟨?_, ?_⟩⟩ <;>
    simp [BYTE_TO_BINARY_CHARS_8_eq, BYTE_TO_BINARY_CHARS_16_eq,
          BYTE_TO_BINARY_CHARS_32_eq, BYTE_TO_BINARY_CHARS_64_eq,
          bigEndianBits_eq_rawBits, length_rawBits]

/-- C5: each width's values sequence is the concatenation of the two
half-width values sequences, high half (of v shifted down) first, low half
second. -/
theorem claim_C5_composition_law (v : Nat) :
    BYTE_TO_BINARY_CHARS_16 v
      = BYTE_TO_BINARY_CHARS_8 (v >>> 8) ++ BYTE_TO_BINARY_CHARS_8 v ∧
    BYTE_TO_BINARY_CHARS_32 v
      = BYTE_TO_BINARY_CHARS_16 (v >>> 16) ++ BYTE_TO_BINARY_CHARS_16 v ∧
    BYTE_TO_BINARY_CHARS_64 v
      = BYTE_TO_BINARY_CHARS_32 (v >>> 32) ++ BYTE_TO_BINARY_CHARS_32 v := by
  refine ⟨?_, ?_, ?_⟩
  · rw [BYTE_TO_BINARY_CHARS_16_eq, BYTE_TO_BINARY_CHARS_8_eq, BYTE_TO_BINARY_CHARS_8_eq]
    exact rawBits_append 8 8 v
  · rw [BYTE_TO_BINARY_CHARS_32_eq, BYTE_TO_BINARY_CHARS_16_eq, BYTE_TO_BINARY_CHARS_16_eq]
    exact rawBits_append 16 16 v
  · rw [BYTE_TO_BINARY_CHARS_64_eq, BYTE_TO_BINARY_CHARS_32_eq, BYTE_TO_BINARY_CHARS_32_eq]
    exact rawBits_append 32 32 v

/-- C6: reassembling an integer from the values sequence of each width,
reading '1'/'0' as bits most significant first, reproduces v mod 2^w. -/
theorem claim_C6_round_trip (v : Nat) :
    fromBinaryChars (BYTE_TO_BINARY_CHARS_8 v) = v % 2 ^ 8 ∧
    fromBinaryChars (BYTE_TO_BINARY_CHARS_16 v) = v % 2 ^ 16 ∧
    fromBinaryChars (BYTE_TO_BINARY_CHARS_32 v) = v % 2 ^ 32 ∧
    fromBinaryChars (BYTE_TO_BINARY_CHARS_64 v) = v % 2 ^ 64 := by
  refine ⟨?_, ?_, ?_, ?_⟩ <;>
    simp [fromBinaryChars, BYTE_TO_BINARY_CHARS_8_eq, BYTE_TO_BINARY_CHARS_16_eq,
          BYTE_TO_BINARY_CHARS_32_eq, BYTE_TO_BINARY_CHARS_64_eq, foldl_rawBits]

/-- C7: each pattern string is the "0b" prefix followed by exactly w "%c"
placeholders in 8-placeholder byte groups separated by "_", so its
placeholder count is w, which is also the length of the matching values
sequence. -/
theorem claim_C7_pattern_shape :
    (BINARY_FORMAT_PATTERN_8 = specPattern 8 ∧
      placeholderCount BINARY_FORMAT_PATTERN_8 = 8 ∧
      ∀ v, (BYTE_TO_BINARY_CHARS_8 v).length = 8) ∧
    (BINARY_FORMAT_PATTERN_16 = specPattern 16 ∧
      placeholderCount BINARY_FORMAT_PATTERN_16 = 16 ∧
      ∀ v, (BYTE_TO_BINARY_CHARS_16 v).length = 16) ∧
    (BINARY_FORMAT_PATTERN_32 = specPattern 32 ∧
      placeholderCount BINARY_FORMAT_PATTERN_32 = 32 ∧
      ∀ v, (BYTE_TO_BINARY_CHARS_32 v).length = 32) ∧
    (BINARY_FORMAT_PATTERN_64 = specPattern 64 ∧
      placeholderCount BINARY_FORMAT_PATTERN_64 = 64 ∧
      ∀ v, (BYTE_TO_BINARY_CHARS_64 v).length = 64) := by
  refine ⟨⟨rfl, rfl, fun v => ?_⟩, ⟨rfl, rfl, fun v => ?_⟩,
          ⟨rfl, rfl, fun v => ?_⟩, ⟨rfl, rfl, fun v => ?_⟩⟩
  · rw [BYTE_TO_BINARY_CHARS_8_eq]; exact length_rawBits 8 v
  · rw [BYTE_TO_BINARY_CHARS_16_eq]; exact length_rawBits 16 v
  · rw [BYTE_TO_BINARY_CHARS_32_eq]; exact length_rawBits 32 v
  · rw [BYTE_TO_BINARY_CHARS_64_eq]; exact length_rawBits 64 v

/-- The descending sentinel list `8, 7, 6, 5, 4, 3, 2, 1, 0` that
`VA_ARGS_COUNT` appends after the real arguments (preamble.h:170). -/
def sentinels : List Nat := [8, 7, 6, 5, 4, 3, 2, 1, 0]

/-- `#define POP_10TH_ARG(arg1, ..., arg8, argN, ...) argN` (preamble.h:169):
despite its name the macro expands to its ninth parameter, the element at
zero-based index 8 of its argument list.  It is only ever invoked with at
least ten arguments, so the `getD` default is never consulted. -/
def POP_10TH_ARG (args : List Nat) : Nat := args.getD 8 0

/-- `#define VA_ARGS_COUNT(...) POP_10TH_ARG(__VA_ARGS__, 8, 7, 6, 5, 4, 3, 2, 1, 0)`
(preamble.h:170). -/
def VA_ARGS_COUNT (args : List Nat) : Nat := POP_10TH_ARG (args ++ sentinels)

/-- The claim's words for C2, kept for comparison with the source: read the
value occupying the statically fixed tenth slot (zero-based index 9) of the
full real-plus-sentinel argument list. -/
def claimTenthSlotCount (args : List Nat) : Nat := (args ++ sentinels).getD 9 0

theorem VA_ARGS_COUNT_eq_sentinel (args : List Nat) (h : args.length ≤ 8) :
    VA_ARGS_COUNT args = sentinels.getD (8 - args.length) 0 := by
  unfold VA_ARGS_COUNT POP_10TH_ARG
  rw [List.getD_eq_getElem?_getD, List.getElem?_append_right h,
      ← List.getD_eq_getElem?_getD]

/-- C2 counterexample: with one real argument, the tenth slot (zero-based
index 9) of the real-plus-sentinel list holds 0, not the argument count 1:
the macro POP_10TH_ARG in fact returns the ninth slot. -/
theorem claim_C2_counterexample :
    claimTenthSlotCount [42] ≠ ([42] : List Nat).length := by decide

/-- C2 (amended): appending the fixed descending sentinel sequence
(8,7,6,5,4,3,2,1,0) after the k real arguments and reading the value in the
statically fixed ninth slot (zero-based index 8; the parameter POP_10TH_ARG
actually returns, despite its name) yields exactly k, for 1 ≤ k ≤ 8. -/
theorem claim_C2_va_args_count (args : List Nat)
    (h1 : 1 ≤ args.length) (h8 : args.length ≤ 8) :
    VA_ARGS_COUNT args = args.length := by
  rw [VA_ARGS_COUNT_eq_sentinel args h8]
  generalize hk : args.length = k at h1 h8 ⊢
  interval_cases k <;> rfl

/-- Witness for C2 at the concrete two-argument list [10, 20]. -/
theorem claim_C2_witness :
    1 ≤ ([10, 20] : List Nat).length ∧ ([10, 20] : List Nat).length ≤ 8 ∧
    VA_ARGS_COUNT [10, 20] = ([10, 20] : List Nat).length :=
  ⟨by decide, by decide, claim_C2_va_args_count [10, 20] (by decide) (by decide)⟩

/-- C10: with nine or more real arguments the counting trick neither counts
nor fails: it returns the ninth real argument itself (zero-based index 8). -/
theorem claim_C10_ninth_argument (args : List Nat) (h : 9 ≤ args.length) :
    VA_ARGS_COUNT args = args.getD 8 0 := by
  unfold VA_ARGS_COUNT POP_10TH_ARG
  rw [List.getD_eq_getElem?_getD, List.getElem?_append_left (by omega),
      ← List.getD_eq_getElem?_getD]

/-- Witness for C10 at a concrete nine-argument list: the result is the
ninth caller-supplied value 99, not a count. -/
theorem claim_C10_witness :
    9 ≤ ([1, 2, 3, 4, 5, 6, 7, 8, 99] : List Nat).length ∧
    VA_ARGS_COUNT [1, 2, 3, 4, 5, 6, 7, 8, 99]
      = ([1, 2, 3, 4, 5, 6, 7, 8, 99] : List Nat).getD 8 0 :=
  ⟨by decide, claim_C10_ninth_argument [1, 2, 3, 4, 5, 6, 7, 8, 99] (by decide)⟩

/-- `#define INTERNAL_CONCAT_HELP(x, y) x ## y` and
`#define INTERNAL_CONCATENATE(x, y) INTERNAL_CONCAT_HELP(x, y)`
(preamble.h:57-58): token pasting; identifiers are embedded as strings, so
pasting is string append. -/
def INTERNAL_CONCATENATE (x y : String) : String := x ++ y

/-- The name-pasting, function-like macros the header defines
(preamble.h:57-58): `INTERNAL_CONCAT_HELP` and `INTERNAL_CONCATENATE`, and
nothing else.  In particular no macro named `CONCATENATE` exists anywhere in
the source. -/
def pastingMacros : String → Option (String → String → String) := fun name =>
  if name = "INTERNAL_CONCAT_HELP" then some fun x y => x ++ y
  else if name = "INTERNAL_CONCATENATE" then some fun x y => x ++ y
  else none

/-- `#define SELECT_FUNCTION(function, postfix) CONCATENATE(function, postfix)`
(preamble.h:172).  The body invokes the name `CONCATENATE`: were that name a
defined pasting macro, the expansion would be the pasted identifier; since it
is not (`pastingMacros "CONCATENATE"` is `none`), the text
`CONCATENATE(function, postfix)` survives preprocessing as a call to the
undeclared identifier `CONCATENATE`, and the build fails.  `none` models
that build failure. -/
def SELECT_FUNCTION (function : String) (suffix : Nat) : Option String :=
  match pastingMacros "CONCATENATE" with
  | some paste => some (paste function (toString suffix))
  | none => none

/-- `#define WITH_DEFAULTS(f, ...) SELECT_FUNCTION(f, VA_ARGS_COUNT(__VA_ARGS__))(__VA_ARGS__)`
(preamble.h:173).  `env` models the function-like macros (or functions) in
scope at the call site; `none` is a name that fails to resolve, i.e. a
build-time failure instead of an invocation. -/
def WITH_DEFAULTS (env : String → Option (List Nat → String)) (f : String)
    (args : List Nat) : Option String :=
  match SELECT_FUNCTION f (VA_ARGS_COUNT args) with
  | some callee =>
    match env callee with
    | some impl => some (impl args)
    | none => none
  | none => none

/-- Modelled from the spec: the dispatcher as §4.2 specifies it and as the
header's own usage example documents it (preamble.h:156-165), i.e. with the
name pasting performed by the pasting macro the header actually defines,
`INTERNAL_CONCATENATE` — the one-token repair of the `SELECT_FUNCTION` slip,
which names the undefined `CONCATENATE` instead. -/
def WITH_DEFAULTS_intended (env : String → Option (List Nat → String))
    (f : String) (args : List Nat) : Option String :=
  match env (INTERNAL_CONCATENATE f (toString (VA_ARGS_COUNT args))) with
  | some impl => some (impl args)
  | none => none

/-- The C3 dispatch family: implementations registered for arities 1 and 2
only, labelled "one-arg" and "two-arg" (the header's greet1/greet2 example
shape, preamble.h:156-165). -/
def greetFamily : String → Option (List Nat → String) := fun name =>
  if name = "greet1" then some fun _ => "one-arg"
  else if name = "greet2" then some fun _ => "two-arg"
  else none

/-- C3, evaluated on the code as written and on the documented intent.  As
written, `SELECT_FUNCTION` names the undefined `CONCATENATE`, so every
dispatch — including the one- and two-argument calls the claim says invoke
the arity-1/arity-2 implementations — fails at build time (first three
conjuncts): the code contradicts its own usage documentation
(preamble.h:163-164).  With the pasting done by the header's own
`INTERNAL_CONCATENATE` (the intended behaviour), dispatch behaves exactly as
the claim states: one argument invokes "one-arg", two invoke "two-arg", and
three fail at build time (last three conjuncts). -/
theorem claim_C3_dispatch_code_bug :
    ((∀ a : Nat, WITH_DEFAULTS greetFamily "greet" [a] = none) ∧
     (∀ a b : Nat, WITH_DEFAULTS greetFamily "greet" [a, b] = none) ∧
     (∀ a b c : Nat, WITH_DEFAULTS greetFamily "greet" [a, b, c] = none)) ∧
    ((∀ a : Nat, WITH_DEFAULTS_intended greetFamily "greet" [a] = some "one-arg") ∧
     (∀ a b : Nat, WITH_DEFAULTS_intended greetFamily "greet" [a, b] = some "two-arg") ∧
     (∀ a b c : Nat, WITH_DEFAULTS_intended greetFamily "greet" [a, b, c] = none)) := by
  refine ⟨⟨fun a => rfl, fun a b => rfl, fun a b c => rfl⟩,
          fun a => ?_, fun a b => ?_, fun a b c => ?_⟩
  · simp only [WITH_DEFAULTS_intended, show VA_ARGS_COUNT [a] = 1 from rfl]
    rfl
  · simp only [WITH_DEFAULTS_intended, show VA_ARGS_COUNT [a, b] = 2 from rfl]
    rfl
  · simp only [WITH_DEFAULTS_intended, show VA_ARGS_COUNT [a, b, c] = 3 from rfl]
    rfl

/-- `#define GENERATE_ENUM(name) name,` (preamble.h:146) expanded over a
canonical list inside `typedef enum { ... }`: C assigns each enumerator,
in order, the ordinal of its zero-based position.  The generated artifact is
the list of (name, ordinal) pairs. -/
def generatedEnum (L : List String) : List (String × Nat) :=
  L.enum.map fun p => (p.2, p.1)

/-- C `sizeof` applied to the string literal produced by stringizing `name`:
the character count plus one for the terminating NUL byte. -/
def sizeofStringLiteral (s : String) : Nat := s.length + 1

/-- `#define GENERATE_STRING(name) (String) { #name , sizeof(#name) },`
(preamble.h:147): one (string, length) entry per name, whose stored length
is the sizeof of the stringized name. -/
def GENERATE_STRING (name : String) : String × Nat := (name, sizeofStringLiteral name)

/-- The name table generated by expanding `GENERATE_STRING` over the
canonical list. -/
def generatedNameTable (L : List String) : List (String × Nat) :=
  L.map GENERATE_STRING

/-- C4: for a non-empty, duplicate-free canonical list L, the generated enum
assigns each name the ordinal of its zero-based position, and the generated
name table has the same length as L with entry i naming L[i]; the two
artifacts are index-aligned at every valid index. -/
theorem claim_C4_index_aligned (L : List String) (i : Nat) (_hne : L ≠ [])
    (_hnd : L.Nodup) (h : i < L.length) :
    (generatedEnum L).length = L.length ∧
    (generatedNameTable L).length = L.length ∧
    (generatedEnum L)[i]? = some (L.get ⟨i, h⟩, i) ∧
    ((generatedNameTable L)[i]?).map Prod.fst = some (L.get ⟨i, h⟩) := by
  refine ⟨by simp [generatedEnum], by simp [generatedNameTable], ?_, ?_⟩
  · simp [generatedEnum, List.enum, List.getElem?_enumFrom, List.getElem?_map,
          List.getElem?_eq_getElem, h]
  · simp [generatedNameTable, List.getElem?_map, List.getElem?_eq_getElem, h,
          GENERATE_STRING]

/-- Witness for C4 at the concrete list ["RED", "GREEN"] and index 1. -/
theorem claim_C4_witness :
    (["RED", "GREEN"] : List String) ≠ [] ∧
    (["RED", "GREEN"] : List String).Nodup ∧
    1 < (["RED", "GREEN"] : List String).length ∧
    ((generatedEnum ["RED", "GREEN"]).length = (["RED", "GREEN"] : List String).length ∧
     (generatedNameTable ["RED", "GREEN"]).length = (["RED", "GREEN"] : List String).length ∧
     (generatedEnum ["RED", "GREEN"])[1]?
       = some ((["RED", "GREEN"] : List String).get ⟨1, by decide⟩, 1) ∧
     ((generatedNameTable ["RED", "GREEN"])[1]?).map Prod.fst
       = some ((["RED", "GREEN"] : List String).get ⟨1, by decide⟩)) :=
  ⟨by decide, by decide, by decide,
   claim_C4_index_aligned ["RED", "GREEN"] 1 (by decide) (by decide) (by decide)⟩

/-- C9: every entry of the generated name table stores as its length field
the character count of its name plus one: the sizeof of the stringized name,
which counts the terminating NUL, not the character count itself. -/
theorem claim_C9_length_counts_nul (L : List String) (e : String × Nat)
    (he : e ∈ generatedNameTable L) : e.2 = e.1.length + 1 := by
  rcases List.mem_map.mp he with ⟨name, _, rfl⟩
  rfl

/-- Witness for C9 at the single-name list ["RED"]: the stored length is 4,
one more than the three characters of "RED". -/
theorem claim_C9_witness :
    (("RED", 4) : String × Nat) ∈ generatedNameTable ["RED"] ∧
    (("RED", 4) : String × Nat).2 = (("RED", 4) : String × Nat).1.length + 1 :=
  ⟨by decide, claim_C9_length_counts_nul ["RED"] ("RED", 4) (by decide)⟩

/-- The binary-format pattern macros the header defines, as a partial map
from the requested width (preamble.h:190-193).  `none` models the identifier
`BINARY_FORMAT_PATTERN_<w>` being undefined: its use cannot compile, and the
resulting unresolved-identifier diagnostic names the identifier, which spells
out the offending width. -/
def binaryFormatPatternForWidth (w : Nat) : Option String :=
  if w = 8 then some BINARY_FORMAT_PATTERN_8
  else if w = 16 then some BINARY_FORMAT_PATTERN_16
  else if w = 32 then some BINARY_FORMAT_PATTERN_32
  else if w = 64 then some BINARY_FORMAT_PATTERN_64
  else none

/-- C8: requesting a formatter width outside {8, 16, 32, 64} hits no defined
pattern macro, so the build fails at the use site. -/
theorem claim_C8_undefined_width (w : Nat) (h : w ∉ ([8, 16, 32, 64] : List Nat)) :
    binaryFormatPatternForWidth w = none := by
  simp only [List.mem_cons, List.not_mem_nil, or_false, not_or] at h
  simp [binaryFormatPatternForWidth, h.1, h.2.1, h.2.2.1, h.2.2.2]

/-- Witness for C8 at the unsupported width 24. -/
theorem claim_C8_witness :
    (24 : Nat) ∉ ([8, 16, 32, 64] : List Nat) ∧
    binaryFormatPatternForWidth 24 = none :=
  ⟨by decide, claim_C8_undefined_width 24 (by decide)⟩

end Preamble
